import Mathlib

set_option maxRecDepth 10000

/-!
Shallow embedding of the CareerCompass Flask application (src/app.py) and
verification of the frozen claims about its specification.

Modelling conventions:
- Python strings are Lean `String`s; `str.strip` / `str.lower` / `str.join`
  are embedded as `pyStrip` / `pyLower` / `pyJoin` (ASCII approximation of
  Python's Unicode case folding and whitespace classes; every concrete input
  used in a theorem below is ASCII, where the two coincide).
- Library calls that perform I/O (python-docx, PyPDF2, the OpenAI client,
  Flask-Mail, gspread, fpdf) are oracles: their outcome is passed in as an
  `Except`-valued argument, `Except.error` standing for a raised Python
  exception.
- The on-disk set of temporary upload files is an explicit `List String` of
  paths threaded through `extract_text_from_upload`.
-/

/-- Whitespace class used by Python's `str.strip` (ASCII part). -/
def isPySpace (c : Char) : Bool :=
  c == ' ' || c == '\t' || c == '\n' || c == '\r' || c == '\x0b' || c == '\x0c'

/-- Strip leading and trailing whitespace from a character list. -/
def stripChars (l : List Char) : List Char :=
  ((l.dropWhile isPySpace).reverse.dropWhile isPySpace).reverse

/-- Embedding of Python `str.strip()`. -/
def pyStrip (s : String) : String :=
  String.mk (stripChars s.data)

/-- Embedding of Python `str.lower()` (ASCII case folding). -/
def pyLower (s : String) : String :=
  String.mk (s.data.map Char.toLower)

/-- Embedding of Python `sep.join(parts)`. -/
def pyJoin (sep : String) : List String → String
  | [] => ""
  | p :: rest => rest.foldl (fun acc q => acc ++ sep ++ q) p

/-- Embedding of `pathlib.Path(name).suffix`: the extension (with its dot) of
the final path component, empty when the last dot is the first character of
the component or when the component ends with the dot. -/
def pySuffix (name : String) : String :=
  let cs := (name.data.reverse.takeWhile (fun c => !(c == '/'))).reverse
  let pre := cs.reverse.takeWhile (fun c => !(c == '.'))
  if pre.length == cs.length then ""
  else if pre.length == 0 then ""
  else if cs.length - 1 - pre.length == 0 then ""
  else String.mk ('.' :: pre.reverse)

/-- Substring test on character lists (`needle` occurs inside `hay`). -/
def listContainsSub (needle : List Char) : List Char → Bool
  | [] => needle.isEmpty
  | c :: rest => List.isPrefixOf needle (c :: rest) || listContainsSub needle rest

/-- Embedding of Python `needle in hay` on strings. -/
def strContains (hay needle : String) : Bool :=
  listContainsSub needle.data hay.data

/-- Case-normalized substring containment. -/
def containsCI (doc pat : String) : Bool :=
  strContains (pyLower doc) (pyLower pat)

/-- A raised Python exception, identified by its message. -/
inductive PyError where
  | raised (msg : String)
deriving DecidableEq

deriving instance DecidableEq for Except

/-- An uploaded file as seen by `extract_text_from_upload`: the declared file
name together with the oracle outcomes of the three extraction libraries on
its byte content.  `txtContent` is the result of decoding the bytes with
`errors="ignore"` (which never raises); `docxParagraphs` is the outcome of
`Document(path)` followed by reading `p.text` of each paragraph in document
order; `pdfPages` is the outcome of `PdfReader(f)` followed by
`page.extract_text()` on each page, `none` standing for a `None` return. -/
structure FileStorage where
  filename : String
  txtContent : String
  docxParagraphs : Except PyError (List String)
  pdfPages : Except PyError (List (Option String))
deriving DecidableEq

/-- The temporary path `UPLOAD_FOLDER / filename` the upload is saved to. -/
def tempPath (filename : String) : String :=
  "uploads/" ++ filename

/-- Embedding of `extract_text_from_upload` (src/app.py lines 328-369).
Returns the extracted text (or the propagated exception: the Python function
has a `try/finally` around the per-extension dispatch but no `except` clause)
together with the disk state after the `finally` block has unlinked the
temporary file (the unlink itself is wrapped in `except Exception: pass`,
modelled by `List.erase` being a no-op on an absent path). -/
def extract_text_from_upload (file_storage : Option FileStorage)
    (disk : List String) : Except PyError String × List String :=
  match file_storage with
  | none => (Except.ok "", disk)
  | some fs =>
    if fs.filename = "" then (Except.ok "", disk)
    else
      let ext := pyLower (pySuffix fs.filename)
      let temp_path := tempPath fs.filename
      let disk1 := temp_path :: disk
      let result : Except PyError String :=
        if ext = ".txt" then Except.ok fs.txtContent
        else if ext = ".docx" then
          match fs.docxParagraphs with
          | Except.ok ps => Except.ok (pyJoin "\n" ps)
          | Except.error e => Except.error e
        else if ext = ".pdf" then
          match fs.pdfPages with
          | Except.ok pages => Except.ok (pyJoin "\n" (pages.map (fun o => o.getD "")))
          | Except.error e => Except.error e
        else Except.ok ""
      let final : Except PyError String :=
        match result with
        | Except.ok t => Except.ok (pyStrip t)
        | Except.error e => Except.error e
      (final, disk1.erase temp_path)

/-- The `.docx` branch as the specification words it: paragraph texts joined
by newlines with empty paragraphs skipped (contributing neither text nor a
separator), then trimmed.  Stated only to be compared with the behaviour of
`extract_text_from_upload`, which does not skip empty paragraphs. -/
def docx_extract_spec (paragraphs : List String) : String :=
  pyStrip (pyJoin "\n" (paragraphs.filter (fun p => !(p == ""))))

/-- The fixed text of the user message surrounding the CV (src/app.py lines
271-288): everything of the f-string before the interpolated `cv_text`. -/
def userPromptHeader : String := "
You are generating a CareerCompass report primarily for soon-to-be or recent graduates
and early-career professionals who may NOT have elite backgrounds or traditional grad schemes.

Analyse the following CV and produce a structured HTML career report.

Important rules:
- Assume the user wants realistic, high-quality options beyond just “apply to grad schemes”.
- Highlight non-obvious but realistic paths, bridge roles, and overlooked industries.
- Follow the exact structure and section titles from the system prompt.
- Use the three group headings (SECTION A/B/C).
- Output ONLY HTML.
- Make the writing realistic, concise, practical, and hopeful but not hypey.
- Base all analysis only on the CV text and reasonable inferences.

Here is the candidate’s CV:

"

/-- Embedding of `build_user_prompt` (src/app.py lines 270-289): the f-string
interpolates the raw `cv_text` between the fixed header and a final newline.
No truncation of any kind is applied. -/
def build_user_prompt (cv_text : String) : String :=
  userPromptHeader ++ cv_text ++ "\n"

/-- Failure modes of the completion-endpoint call: every one of them surfaces
as an exception raised by `client.chat.completions.create`. -/
inductive ApiError where
  | timeout
  | connectionError
  | statusError (code : Nat)
  | malformedBody
deriving DecidableEq

/-- The `message` part of a returned chat completion choice. -/
structure ChatMessage where
  content : String
deriving DecidableEq

/-- One choice of a returned chat completion. -/
structure ChatChoice where
  message : ChatMessage
deriving DecidableEq

/-- A successfully parsed completion-endpoint response. -/
structure ChatResponse where
  choices : List ChatChoice
deriving DecidableEq

/-- The error block returned when no CV text is provided (src/app.py line 380). -/
def noCvHtml : String :=
  "<div class=\x27section\x27><h2>Error</h2><p>No CV text provided.</p></div>"

/-- The static fallback document returned when the completion-endpoint call
fails (src/app.py lines 397-410), byte-for-byte including the indentation of
the Python triple-quoted literal. -/
def fallbackHtml : String := "
        <div class=\x27section\x27>
          <h2>Temporary issue generating your report</h2>
          <p>
            We ran into a problem while generating your CareerCompass report.
            This is usually due to a temporary issue talking to the AI model.
          </p>
          <p>
            Please wait a moment and try again. If this keeps happening,
            you can reply to any CareerCompass email or contact the creator
            with a screenshot of this page.
          </p>
        </div>
        "

/-- Embedding of `generate_report_html` (src/app.py lines 373-410),
instrumented with the number of completion-endpoint invocations made: the
`create` call is the first statement of the `try` block, so it happens
exactly once on every path past the empty-input guard, whether it raises or
returns.  A raised exception of any kind is caught by the single
`except Exception` clause and turned into `fallbackHtml`; an `IndexError`
from `response.choices[0]` on an empty `choices` list is caught by that same
clause. -/
def generate_report_html_counted (cv_text : String)
    (api : Except ApiError ChatResponse) : String × Nat :=
  if pyStrip cv_text = "" then (noCvHtml, 0)
  else
    match api with
    | Except.error _ => (fallbackHtml, 1)
    | Except.ok r =>
      match r.choices with
      | [] => (fallbackHtml, 1)
      | c :: _ => (c.message.content, 1)

/-- Embedding of `generate_report_html`: just the returned document. -/
def generate_report_html (cv_text : String) (api : Except ApiError ChatResponse) : String :=
  (generate_report_html_counted cv_text api).fst

/-- The document the generator yields for a given call outcome, once past the
empty-input guard: the completion content on success, `fallbackHtml` on any
failure or on an empty choices list. -/
def chatOutput (api : Except ApiError ChatResponse) : String :=
  match api with
  | Except.error _ => fallbackHtml
  | Except.ok r =>
    match r.choices with
    | [] => fallbackHtml
    | c :: _ => c.message.content

/-- Header row written to a fresh mailing-list CSV (src/app.py line 427). -/
def csvHeader : List String :=
  ["email", "timestamp_utc"]

/-- Embedding of `save_email_to_list` (src/app.py lines 414-428).  The CSV
file is `none` when it does not exist, otherwise `some` of its rows.  The
normalized address is `(email or "").strip().lower()`; if it is empty the
function returns before touching the file, otherwise the file is opened in
append mode, the header row is written first exactly when the file did not
exist, and one data row (address, UTC timestamp) is appended. -/
def save_email_to_list (file : Option (List (List String))) (email : Option String)
    (now : String) : Option (List (List String)) :=
  let e := pyLower (pyStrip (email.getD ""))
  if e = "" then file
  else
    match file with
    | some rows => some (rows ++ [[e, now]])
    | none => some ([csvHeader] ++ [[e, now]])

/-- Modelled from the spec: the StructuralContract of section 3 and 4.4.  No
structural-validation code exists under src/ (the repository revision in
src/app.py has no validator), so the static contract is taken from the
specification: a list of required heading strings, "summary" marker patterns,
whether scored output is mandated, and the section-wrapper marker. -/
structure StructuralContract where
  requiredHeadings : List String
  summaryMarkers : List String
  mandatesScores : Bool
  sectionWrapper : String

/-- Modelled from the spec: the Structural Validator of section 4.4, which is
absent from src/.  Case-normalized substring containment is checked for every
required heading; additionally at least one summary marker must be present, a
percentage character is required when the contract mandates scored output,
and the section-wrapper marker must be present. -/
def validate_report (c : StructuralContract) (doc : String) : Bool :=
  c.requiredHeadings.all (fun h => containsCI doc h) &&
  c.summaryMarkers.any (fun m => containsCI doc m) &&
  (!c.mandatesScores || strContains doc "%") &&
  containsCI doc c.sectionWrapper

/-- Modelled from the spec: the contract instance for the report format fixed
by `SYSTEM_PROMPT` (src/app.py lines 136-158): the ten numbered section
headings and three group headings, the `<div class="section">` wrapper every
main section must be wrapped in, the "Professional Summary" marker, and
percentage-formatted scores. -/
def defaultContract : StructuralContract :=
  ⟨["SECTION A — Candidate Overview",
    "Candidate Snapshot",
    "Suitable Roles",
    "Strengths",
    "Skill Gaps & What to Learn",
    "SECTION B — Candidate → Hired",
    "Salary Expectations",
    "Companies Hiring / Employer Types",
    "90-Day Action Plan",
    "SECTION C — Job Search Resources",
    "Professional Summary (CV & LinkedIn Ready)",
    "Cover Letter Opening Paragraph",
    "Job Search Tips"],
   ["Professional Summary"],
   true,
   "<div class=\"section\">"⟩

/-- The form data of one `/generate` request (src/app.py lines 529-531). -/
structure GenerateRequest where
  email : String
  cv_text : String
  cv_file : Option FileStorage

/-- Oracle outcomes of the four side-effect dispatches of the `/generate`
route: PDF generation, CSV mailing-list append, Google-Sheet sync, and the
report email.  Each is an independent call that either returns or raises. -/
structure Effects where
  pdf : Except PyError Unit
  save : Except PyError Unit
  sync : Except PyError Unit
  send : Except PyError Unit
deriving DecidableEq

/-- The user-visible outcome of a `/generate` request: either a redirect to
the index page with a flashed message, or the rendered report page. -/
inductive GenerateResponse where
  | redirectWithFlash (message category : String)
  | reportPage (email report_html download_url : String)
deriving DecidableEq

/-- Observable result of one `/generate` request: the response handed to the
user, the number of completion-endpoint invocations made, the error lines
logged by the side-effect wrappers, and the disk state of temporary upload
files after the request. -/
structure RunOutcome where
  response : GenerateResponse
  apiCalls : Nat
  loggedErrors : List String
  disk : List String
deriving DecidableEq

/-- The log line produced by one side-effect `except` wrapper. -/
def effectLog (tag : String) (r : Except PyError Unit) : List String :=
  match r with
  | Except.ok _ => []
  | Except.error (PyError.raised m) => [tag ++ m]

/-- The error lines logged by the four wrapped side-effect dispatches
(src/app.py lines 557-576), in program order. -/
def effectErrors (fx : Effects) : List String :=
  effectLog "Error generating PDF: " fx.pdf ++
  effectLog "Failed to save email to list: " fx.save ++
  effectLog "Failed to sync email to Google Sheet: " fx.sync ++
  effectLog "Failed to send report email: " fx.send

/-- The combined candidate text (src/app.py lines 534-536): pasted text and
extracted upload text joined by one blank line, each part included only when
non-empty, then stripped. -/
def combine_cv (text_box file_text : String) : String :=
  pyStrip (pyJoin "\n\n" (List.filter (fun p => !(p == "")) [text_box, file_text]))

/-- Embedding of the `/generate` route `generate_report` (src/app.py lines
527-586).  An exception raised by the extractor propagates (the route does
not catch it); empty combined text flashes a validation message and
redirects without calling the generator; otherwise the generator is invoked
exactly once and its document — whatever it is — is rendered, while the four
side-effect dispatches are each wrapped so that a raised exception is only
logged. -/
def generate_report (req : GenerateRequest) (disk : List String)
    (api : Except ApiError ChatResponse) (fx : Effects) (report_id : String) :
    Except PyError RunOutcome :=
  let email := pyStrip req.email
  let text_box := pyStrip req.cv_text
  match extract_text_from_upload req.cv_file disk with
  | (Except.error e, _) => Except.error e
  | (Except.ok file_text, disk1) =>
    let combined_cv := combine_cv text_box file_text
    if combined_cv = "" then
      Except.ok ⟨GenerateResponse.redirectWithFlash
        "Please paste your CV or upload a valid file." "error", 0, [], disk1⟩
    else
      let rh := generate_report_html_counted combined_cv api
      Except.ok ⟨GenerateResponse.reportPage email rh.fst ("/download/" ++ report_id),
        rh.snd, effectErrors fx, disk1⟩

/-- Side-effect oracle where every dispatch succeeds. -/
def fxAllOk : Effects :=
  ⟨Except.ok (), Except.ok (), Except.ok (), Except.ok ()⟩

/-- Side-effect oracle where every one of the four dispatches raises. -/
def fxAllFail : Effects :=
  ⟨Except.error (PyError.raised "pdf failed"), Except.error (PyError.raised "csv failed"),
   Except.error (PyError.raised "sheet failed"), Except.error (PyError.raised "mail failed")⟩

/-- A successful endpoint response whose single completion is a document that
contains none of the required headings. -/
def apiInvalidDoc : Except ApiError ChatResponse :=
  Except.ok ⟨[⟨⟨"<p>hello</p>"⟩⟩]⟩

/-- A `.docx` upload whose paragraph texts include an empty paragraph. -/
def docxEmptyParaFile : FileStorage :=
  ⟨"cv.docx", "", Except.ok ["Alice", "", "Bob"], Except.ok []⟩

/-- A `.docx` upload whose bytes are not a valid zip archive: `Document(...)`
raises `BadZipFile`. -/
def docxBadFile : FileStorage :=
  ⟨"cv.docx", "", Except.error (PyError.raised "BadZipFile"), Except.ok []⟩

/-- A `.pdf` upload that `PdfReader` fails to parse. -/
def pdfBadFile : FileStorage :=
  ⟨"cv.pdf", "", Except.ok [], Except.error (PyError.raised "PdfReadError")⟩

/-- A well-formed two-paragraph `.docx` upload. -/
def docxOkFile : FileStorage :=
  ⟨"resume.docx", "", Except.ok ["Alice Smith", "Engineer"], Except.ok []⟩

/-- A small structural contract used to exercise the validator. -/
def wContract : StructuralContract :=
  ⟨["Q"], ["Summary"], true, "<div>"⟩

theorem stripChars_eq_rdropWhile (m : List Char) :
    stripChars m = List.rdropWhile isPySpace (List.dropWhile isPySpace m) := rfl

theorem stripChars_idem (l : List Char) : stripChars (stripChars l) = stripChars l := by
  rw [stripChars_eq_rdropWhile l, stripChars_eq_rdropWhile]
  have hAself : List.dropWhile isPySpace (List.dropWhile isPySpace l) =
      List.dropWhile isPySpace l := List.dropWhile_idempotent isPySpace l
  have hdropB : List.dropWhile isPySpace
      (List.rdropWhile isPySpace (List.dropWhile isPySpace l)) =
      List.rdropWhile isPySpace (List.dropWhile isPySpace l) := by
    rw [List.dropWhile_eq_self_iff]
    intro hl
    have hpre := List.rdropWhile_prefix isPySpace (List.dropWhile isPySpace l)
    have hlA : 0 < (List.dropWhile isPySpace l).length :=
      lt_of_lt_of_le hl hpre.length_le
    have hget := hpre.getElem hl
    rw [List.get_eq_getElem, hget]
    have := List.dropWhile_eq_self_iff.mp hAself hlA
    rw [List.get_eq_getElem] at this
    exact this
  rw [hdropB]
  exact List.rdropWhile_idempotent _ _

theorem pyStrip_idem (s : String) : pyStrip (pyStrip s) = pyStrip s := by
  show String.mk (stripChars (stripChars s.data)) = String.mk (stripChars s.data)
  rw [stripChars_idem]

theorem generate_report_html_counted_of_nonempty (cv : String)
    (api : Except ApiError ChatResponse) (h : pyStrip cv ≠ "") :
    generate_report_html_counted cv api = (chatOutput api, 1) := by
  unfold generate_report_html_counted chatOutput
  rw [if_neg h]
  match api with
  | Except.error e => rfl
  | Except.ok r =>
    match r with
    | ⟨[]⟩ => rfl
    | ⟨c :: t⟩ => rfl

theorem combine_cv_strip_eq (tb ft : String) :
    pyStrip (combine_cv tb ft) = combine_cv tb ft := by
  unfold combine_cv
  exact pyStrip_idem _

theorem generate_report_ok_helper (req : GenerateRequest) (disk d1 : List String)
    (ft : String) (api : Except ApiError ChatResponse) (fx : Effects) (rid : String)
    (hx : extract_text_from_upload req.cv_file disk = (Except.ok ft, d1))
    (hc : combine_cv (pyStrip req.cv_text) ft ≠ "") :
    generate_report req disk api fx rid =
      Except.ok ⟨GenerateResponse.reportPage (pyStrip req.email) (chatOutput api)
        ("/download/" ++ rid), 1, effectErrors fx, d1⟩ := by
  have h2 : pyStrip (combine_cv (pyStrip req.cv_text) ft) ≠ "" := by
    rw [combine_cv_strip_eq]
    exact hc
  unfold generate_report
  rw [hx]
  simp only [if_neg hc, generate_report_html_counted_of_nonempty _ api h2]

theorem generate_report_empty_helper (req : GenerateRequest) (disk d1 : List String)
    (api : Except ApiError ChatResponse) (fx : Effects) (rid : String)
    (hx : extract_text_from_upload req.cv_file disk = (Except.ok "", d1))
    (ht : pyStrip req.cv_text = "") :
    generate_report req disk api fx rid =
      Except.ok ⟨GenerateResponse.redirectWithFlash
        "Please paste your CV or upload a valid file." "error", 0, [], d1⟩ := by
  have hc : combine_cv (pyStrip req.cv_text) "" = "" := by
    rw [ht]
    rfl
  unfold generate_report
  rw [hx]
  simp only [hc, if_pos]

/-- C2 counterexample: `build_user_prompt` performs no truncation at all, so
no fixed character bound exists for the embedded candidate-text portion of
the user message: for every proposed bound, the input consisting of bound+1
copies of the character a produces a longer user message than the fixed
header plus bound plus one characters, refuting the claim that the embedded
portion never exceeds a configured bound. -/
theorem prompt_unbounded_cx :
    ¬ ∃ B : Nat, ∀ cv : String,
      (build_user_prompt cv).length ≤ userPromptHeader.length + B + 1 := by
  rintro ⟨B, hB⟩
  have h := hB (String.mk (List.replicate (B + 2) 'a'))
  have hlen : (build_user_prompt (String.mk (List.replicate (B + 2) 'a'))).length
      = userPromptHeader.length + (B + 2) + 1 := by
    unfold build_user_prompt
    rw [String.length_append, String.length_append]
    have h1 : (String.mk (List.replicate (B + 2) 'a')).length = B + 2 := by
      simp [String.length]
    have h2 : ("\n" : String).length = 1 := rfl
    rw [h1, h2]
  rw [hlen] at h
  omega

/-- C2 (amended): the Prompt Builder embeds the candidate text verbatim, with
no truncation: the user message is exactly the fixed header, the input, and a
final newline, so the embedded candidate-text portion has precisely the
length of the input for every input. -/
theorem user_prompt_embeds_verbatim (cv_text : String) :
    build_user_prompt cv_text = userPromptHeader ++ cv_text ++ "\n" ∧
    (build_user_prompt cv_text).length = userPromptHeader.length + cv_text.length + 1 := by
  constructor
  · rfl
  · unfold build_user_prompt
    rw [String.length_append, String.length_append]
    rfl

/-- C3: for every non-empty candidate text, a completion-endpoint call that
fails in any way (timeout, transport error, endpoint status error, malformed
response body) makes `generate_report_html` return the one static fallback
document.  The embedding is a total function into `String`, which captures
that the `except Exception` clause lets no exception propagate to the
caller. -/
theorem generator_failure_fallback (cv_text : String) (err : ApiError)
    (h : pyStrip cv_text ≠ "") :
    generate_report_html cv_text (Except.error err) = fallbackHtml := by
  unfold generate_report_html
  rw [generate_report_html_counted_of_nonempty _ _ h]
  rfl

/-- C3 witness: on a timeout the returned document equals the fixed fallback
fragment. -/
theorem generator_failure_fallback_witness :
    generate_report_html "My CV text" (Except.error ApiError.timeout) = fallbackHtml :=
  generator_failure_fallback "My CV text" ApiError.timeout (by decide)

/-- C4 counterexample: on a `.docx` whose paragraph texts are Alice, the
empty paragraph, and Bob, the code returns the three paragraphs joined with a
newline separator each — the empty paragraph contributes a separator, giving
a blank line — while the claimed skip-empty-paragraphs reading predicts no
blank line.  The two results differ. -/
theorem docx_empty_paragraph_cx :
    (extract_text_from_upload (some docxEmptyParaFile) []).fst = Except.ok "Alice\n\nBob" ∧
    docx_extract_spec ["Alice", "", "Bob"] = "Alice\nBob" ∧
    ("Alice\n\nBob" : String) ≠ "Alice\nBob" := by
  refine ⟨by decide, by decide, by decide⟩

/-- C4 (amended): for every `.docx` upload whose paragraph list is obtained,
the extractor returns the text of every paragraph in document order joined by
newlines — empty paragraphs included, each contributing an empty line rather
than being skipped — with the result trimmed of leading and trailing
whitespace. -/
theorem docx_joins_all_paragraphs (fs : FileStorage) (disk : List String)
    (ps : List String) (hname : ¬ fs.filename = "")
    (hext : pyLower (pySuffix fs.filename) = ".docx")
    (hps : fs.docxParagraphs = Except.ok ps) :
    (extract_text_from_upload (some fs) disk).fst = Except.ok (pyStrip (pyJoin "\n" ps)) := by
  simp [extract_text_from_upload, hname, hext, hps]

/-- C4 witness: the amended theorem evaluated on a concrete two-paragraph
`.docx` upload. -/
theorem docx_joins_all_paragraphs_witness :
    (extract_text_from_upload (some docxOkFile) []).fst
      = Except.ok (pyStrip (pyJoin "\n" ["Alice Smith", "Engineer"])) :=
  docx_joins_all_paragraphs docxOkFile [] ["Alice Smith", "Engineer"]
    (by decide) (by decide) rfl

/-- C5 counterexample: a `.docx` upload whose parse fails entirely does not
yield the empty string: `extract_text_from_upload` has no `except` clause, so
the library exception propagates out of the extractor to its caller. -/
theorem extractor_failure_propagates_cx :
    (extract_text_from_upload (some docxBadFile) []).fst
      = Except.error (PyError.raised "BadZipFile") ∧
    (extract_text_from_upload (some docxBadFile) []).fst ≠ Except.ok "" := by
  refine ⟨by decide, by decide⟩

/-- C5 (amended): a total failure to open or parse a `.docx` or `.pdf` upload
propagates out of the Text Extractor as the raised exception (the `finally`
block still deletes the temporary file); only undecodable `.txt` byte
sequences and falsy per-page extraction results degrade to empty
contributions. -/
theorem extractor_parse_failure_propagates (fs : FileStorage) (disk : List String)
    (e : PyError) (hname : ¬ fs.filename = "") :
    (pyLower (pySuffix fs.filename) = ".docx" → fs.docxParagraphs = Except.error e →
      (extract_text_from_upload (some fs) disk).fst = Except.error e) ∧
    (pyLower (pySuffix fs.filename) = ".pdf" → fs.pdfPages = Except.error e →
      (extract_text_from_upload (some fs) disk).fst = Except.error e) := by
  constructor <;> intro hext herr <;> simp [extract_text_from_upload, hname, hext, herr]

/-- C5 witness: the amended theorem evaluated on a concrete unparseable
`.pdf` upload. -/
theorem extractor_parse_failure_propagates_witness :
    (extract_text_from_upload (some pdfBadFile) []).fst
      = Except.error (PyError.raised "PdfReadError") :=
  (extractor_parse_failure_propagates pdfBadFile [] (PyError.raised "PdfReadError")
    (by decide)).2 (by decide) rfl

/-- C6: on every exit path of the Text Extractor — success, empty result, or
propagated exception — the temporary file written for the upload is absent
from the disk state the extractor returns: the `finally` block unlinks it
unconditionally, and the no-file and empty-filename early returns never
create it. -/
theorem temp_file_always_deleted (fs : FileStorage) (disk : List String)
    (h : tempPath fs.filename ∉ disk) :
    tempPath fs.filename ∉ (extract_text_from_upload (some fs) disk).snd := by
  by_cases hn : fs.filename = ""
  · simpa [extract_text_from_upload, hn] using h
  · simp only [extract_text_from_upload, if_neg hn]
    show tempPath fs.filename ∉ (tempPath fs.filename :: disk).erase (tempPath fs.filename)
    rw [List.erase_cons_head]
    exact h

/-- C6 witness: the theorem evaluated on a concrete `.txt` upload and an
empty initial disk. -/
theorem temp_file_always_deleted_witness :
    tempPath "cv.txt" ∉
      (extract_text_from_upload (some ⟨"cv.txt", " hello ", Except.ok [], Except.ok []⟩) []).snd :=
  temp_file_always_deleted ⟨"cv.txt", " hello ", Except.ok [], Except.ok []⟩ [] (by decide)

/-- C1 counterexample: a request with non-empty pasted text whose generator
call returns a document failing structural validation (it contains none of
the required headings).  The orchestrator makes exactly one
completion-endpoint invocation — not the two (initial plus repair) the claim
requires — and returns the unrepaired document as the final response: no
repair call exists in the code. -/
theorem no_repair_pass_cx :
    validate_report defaultContract "<p>hello</p>" = false ∧
    generate_report ⟨"", "John Smith, graduate mathematician", none⟩ []
        apiInvalidDoc fxAllOk "r1" =
      Except.ok ⟨GenerateResponse.reportPage "" "<p>hello</p>" "/download/r1", 1, [], []⟩ ∧
    (generate_report ⟨"", "John Smith, graduate mathematician", none⟩ []
        apiInvalidDoc fxAllOk "r1").map RunOutcome.apiCalls ≠ Except.ok 2 := by
  refine ⟨by decide, by decide, by decide⟩

/-- C1 (amended): no repair pass exists in the code.  For every request whose
combined candidate text is non-empty, exactly one completion-endpoint
invocation occurs, and the final document returned to the user is whatever
that single generator call yields — even when it fails structural
validation. -/
theorem single_generation_no_repair (req : GenerateRequest) (disk d1 : List String)
    (ft : String) (api : Except ApiError ChatResponse) (fx : Effects) (rid : String)
    (hx : extract_text_from_upload req.cv_file disk = (Except.ok ft, d1))
    (hc : combine_cv (pyStrip req.cv_text) ft ≠ "") :
    ∃ out : RunOutcome,
      generate_report req disk api fx rid = Except.ok out ∧
      out.apiCalls = 1 ∧
      out.response = GenerateResponse.reportPage (pyStrip req.email) (chatOutput api)
        ("/download/" ++ rid) :=
  ⟨_, generate_report_ok_helper req disk d1 ft api fx rid hx hc, rfl, rfl⟩

/-- C1 witness: the amended theorem evaluated on a concrete request. -/
theorem single_generation_no_repair_witness :
    ∃ out : RunOutcome,
      generate_report ⟨"a@b.c", "Jane Doe, physicist", none⟩ [] apiInvalidDoc fxAllOk "r3" =
        Except.ok out ∧
      out.apiCalls = 1 ∧
      out.response = GenerateResponse.reportPage "a@b.c" "<p>hello</p>" "/download/r3" :=
  single_generation_no_repair ⟨"a@b.c", "Jane Doe, physicist", none⟩ [] [] ""
    apiInvalidDoc fxAllOk "r3" rfl (by decide)

/-- C7: a request in which the stripped pasted text is empty and the upload
extraction yields the empty string terminates early with the flashed
validation message and a redirect, and makes zero calls to the completion
endpoint. -/
theorem empty_input_early_exit (req : GenerateRequest) (disk d1 : List String)
    (api : Except ApiError ChatResponse) (fx : Effects) (rid : String)
    (hx : extract_text_from_upload req.cv_file disk = (Except.ok "", d1))
    (ht : pyStrip req.cv_text = "") :
    generate_report req disk api fx rid =
      Except.ok ⟨GenerateResponse.redirectWithFlash
        "Please paste your CV or upload a valid file." "error", 0, [], d1⟩ :=
  generate_report_empty_helper req disk d1 api fx rid hx ht

/-- C7 witness: empty pasted text and no file yield the validation message
and zero completion-endpoint invocations. -/
theorem empty_input_early_exit_witness :
    generate_report ⟨"", "", none⟩ [] (Except.error ApiError.timeout) fxAllOk "r0" =
      Except.ok ⟨GenerateResponse.redirectWithFlash
        "Please paste your CV or upload a valid file." "error", 0, [], []⟩ :=
  empty_input_early_exit ⟨"", "", none⟩ [] [] (Except.error ApiError.timeout) fxAllOk "r0"
    rfl rfl

/-- C8: the Structural Validator is a pure Boolean function of the document
and the static contract — determinism holds because `validate_report` is a
function of exactly these two arguments.  It returns true exactly when every
required heading is contained case-normalized, at least one summary marker is
present, a percentage character is present whenever the contract mandates
scored output, and the section-wrapper marker is present; and a single
missing heading forces the result false. -/
theorem structural_validator_spec :
    (∀ (c : StructuralContract) (d : String),
      validate_report c d = true ↔
        ((∀ h ∈ c.requiredHeadings, containsCI d h = true) ∧
         (∃ m ∈ c.summaryMarkers, containsCI d m = true) ∧
         (c.mandatesScores = true → strContains d "%" = true) ∧
         containsCI d c.sectionWrapper = true)) ∧
    (∀ (c : StructuralContract) (d h : String),
      h ∈ c.requiredHeadings → containsCI d h = false → validate_report c d = false) := by
  constructor
  · intro c d
    unfold validate_report
    cases hms : c.mandatesScores <;>
      simp [hms, List.all_eq_true, List.any_eq_true, and_assoc]
  · intro c d h hmem hfalse
    unfold validate_report
    have hall : c.requiredHeadings.all (fun x => containsCI d x) = false :=
      List.all_eq_false.mpr ⟨h, hmem, by simp [hfalse]⟩
    rw [hall]
    rfl

/-- C8 witness: the validator accepts a minimal document containing the
required heading, a summary marker, a percentage and the wrapper, and rejects
the same document with the single required heading removed. -/
theorem structural_validator_spec_witness :
    validate_report wContract "q summary 10% <div>" = true ∧
    validate_report wContract "summary 10% <div>" = false :=
  ⟨(structural_validator_spec.1 wContract "q summary 10% <div>").mpr (by decide),
   structural_validator_spec.2 wContract "summary 10% <div>" "Q" (by decide) (by decide)⟩

/-- C9: for every request with non-empty combined candidate text, the primary
response is the rendered report page carrying the generator's document
unchanged, for every outcome of the four side-effect dispatches (PDF
generation, CSV append, spreadsheet sync, email send) — and the response is
identical under any two side-effect outcome vectors, so a raised exception in
any of them never prevents or alters the primary response. -/
theorem side_effects_never_block_response (req : GenerateRequest) (disk d1 : List String)
    (ft : String) (api : Except ApiError ChatResponse) (fx fx2 : Effects) (rid : String)
    (hx : extract_text_from_upload req.cv_file disk = (Except.ok ft, d1))
    (hc : combine_cv (pyStrip req.cv_text) ft ≠ "") :
    (generate_report req disk api fx rid).map RunOutcome.response =
      Except.ok (GenerateResponse.reportPage (pyStrip req.email) (chatOutput api)
        ("/download/" ++ rid)) ∧
    (generate_report req disk api fx rid).map RunOutcome.response =
      (generate_report req disk api fx2 rid).map RunOutcome.response := by
  rw [generate_report_ok_helper req disk d1 ft api fx rid hx hc,
    generate_report_ok_helper req disk d1 ft api fx2 rid hx hc]
  exact ⟨rfl, rfl⟩

/-- C9 witness: with all four side-effect dispatches raising, the response is
still the report page with the generated document. -/
theorem side_effects_never_block_response_witness :
    (generate_report ⟨"user@example.com", "Some CV text", none⟩ [] apiInvalidDoc
        fxAllFail "r2").map RunOutcome.response =
      Except.ok (GenerateResponse.reportPage "user@example.com" "<p>hello</p>" "/download/r2") :=
  (side_effects_never_block_response ⟨"user@example.com", "Some CV text", none⟩ [] [] ""
    apiInvalidDoc fxAllFail fxAllOk "r2" rfl (by decide)).1

/-- C10: `save_email_to_list` normalizes the address by stripping whitespace
and lowercasing (the code strips first and then lowercases; ASCII lowering
maps no character into or out of the whitespace class, so the order is
unobservable); if the normalized address is empty the CSV file is left
untouched, otherwise exactly one data row (address, UTC timestamp) is
appended to the end — after the header row exactly when the file did not
previously exist — and every existing row is preserved unchanged as a prefix
of the new contents. -/
theorem save_email_append_spec :
    (∀ (file : Option (List (List String))) (email : Option String) (now : String),
      pyLower (pyStrip (email.getD "")) = "" →
      save_email_to_list file email now = file) ∧
    (∀ (rows : List (List String)) (email : Option String) (now : String),
      pyLower (pyStrip (email.getD "")) ≠ "" →
      save_email_to_list (some rows) email now =
        some (rows ++ [[pyLower (pyStrip (email.getD "")), now]])) ∧
    (∀ (email : Option String) (now : String),
      pyLower (pyStrip (email.getD "")) ≠ "" →
      save_email_to_list none email now =
        some [csvHeader, [pyLower (pyStrip (email.getD "")), now]]) := by
  refine ⟨?_, ?_, ?_⟩
  · intro file email now h
    unfold save_email_to_list
    rw [if_pos h]
  · intro rows email now h
    unfold save_email_to_list
    rw [if_neg h]
  · intro email now h
    unfold save_email_to_list
    rw [if_neg h]
    rfl

/-- C10 witness: appending a mixed-case address with surrounding whitespace
to an existing one-row file appends exactly the normalized data row. -/
theorem save_email_append_spec_witness :
    save_email_to_list (some [["x", "t0"]]) (some " A@B.com ") "t1" =
      some [["x", "t0"], ["a@b.com", "t1"]] := by
  have h := save_email_append_spec.2.1 [["x", "t0"]] (some " A@B.com ") "t1" (by decide)
  rw [h]
  decide
